import Mathlib

/-!
Verification of the package-manager dispatch, script-runner and lint tools of
the tokenring-ai/javascript repository.  Each definition below is a shallow
embedding of one source function; the theorems settle the specification
claims against these embeddings.

Filesystem model: a project directory is the list of file names it directly
contains; `filesystem.exists name` is membership in that list.  External
process execution is modelled by an oracle argument so that the spawned
command lines become explicit data the theorems can talk about.
-/

namespace TokenRingJS

/-- ManagerKind of spec section 3: the package managers the tools recognize,
plus `unknown` for an undetected manager. -/
inductive ManagerKind
  | bun
  | pnpm
  | yarn
  | npm
  | unknown
deriving DecidableEq, Repr

/-- Embeds `filesystem.exists(name)`: the directory is the list of file names
it contains. -/
def fsExists (files : List String) (f : String) : Bool :=
  files.contains f

/-- Tool name constant of src/tools/installPackages.ts. -/
def installToolName : String := "javascript_installPackages"

/-- Tool name constant of src/tools/removePackages.ts. -/
def removeToolName : String := "javascript_removePackages"

/-- Embeds `execute` of src/tools/installPackages.ts (lines 22-67).
The first component is the outcome: `Except.error` for a thrown Error,
`Except.ok` for a normal return (the code returns the result of the `bash`
tool; we carry the shell command string it was given).  The second component
is the list of shell command strings handed to the `bash` tool — the code
builds ONE template-literal string per invocation, e.g.
`pnpm add ${isDev ? "-D " : ""}${packageName}`, and detection checks, in
order, pnpm-lock.yaml, yarn.lock, package-lock.json (there is no bun branch
in this file). -/
def installExecute (files : List String) (isDev : Bool) (packageName : String) :
    Except String String × List String :=
  if packageName = "" then
    (Except.error ("[" ++ installToolName ++ "] packageName is required"), [])
  else if fsExists files "pnpm-lock.yaml" then
    let cmd := "pnpm add " ++ (if isDev then "-D " else "") ++ packageName
    (Except.ok cmd, [cmd])
  else if fsExists files "yarn.lock" then
    let cmd := "yarn add " ++ (if isDev then "--dev " else "") ++ packageName
    (Except.ok cmd, [cmd])
  else if fsExists files "package-lock.json" then
    let cmd := "npm install " ++ (if isDev then "--save-dev " else "") ++ packageName
    (Except.ok cmd, [cmd])
  else
    (Except.error ("[" ++ installToolName ++
      "] No supported package manager lock file found (pnpm-lock.yaml, yarn.lock, package-lock.json)."),
     [])

/-- Result of `terminal.executeCommand` as consumed by removePackages.ts and
runJavaScriptScript.ts: a status tag with the fields each branch reads. -/
inductive CommandStatus
  | success (output : String)
  | badExitCode (output : String) (exitCode : Int)
  | unknownError (error : String)
  | timeout
deriving DecidableEq, Repr

/-- One spawned child process: executable name plus its argument list. -/
structure SpawnCall where
  exe : String
  args : List String
deriving DecidableEq, Repr

/-- Embeds the body each detection branch of removePackages.ts repeats
(lines 28-31 and its three copies): run the manager with argument list
`["remove", packageName]`, then build the returned message from the result
status. -/
def removeBranch (runCmd : String → List String → CommandStatus) (exe : String)
    (packageName : String) : Except String String × List SpawnCall :=
  match runCmd exe ["remove", packageName] with
  | .success _ =>
      (Except.ok ("Package " ++ packageName ++ " removed"),
       [⟨exe, ["remove", packageName]⟩])
  | .badExitCode output _ =>
      (Except.ok ("Package " ++ packageName ++ " could not be removed:\n" ++ output),
       [⟨exe, ["remove", packageName]⟩])
  | .unknownError e =>
      (Except.ok ("Package " ++ packageName ++ " could not be removed:\n" ++ e),
       [⟨exe, ["remove", packageName]⟩])
  | .timeout =>
      (Except.ok ("Package " ++ packageName ++ " could not be removed:\nTimeout"),
       [⟨exe, ["remove", packageName]⟩])

/-- Embeds `String.prototype.trim` of JavaScript: strip whitespace from both
ends of the string (written over the character list so that it evaluates by
kernel reduction). -/
def jsTrim (s : String) : String :=
  String.mk (((s.data.dropWhile Char.isWhitespace).reverse.dropWhile
    Char.isWhitespace).reverse)

/-- Embeds `execute` of src/tools/removePackages.ts (lines 14-57).
`runCmd` is the `terminal.executeCommand` oracle.  The second component is
the list of spawned child processes.  Validation rejects an empty or
whitespace-only package name; detection checks, in order, bun.lock,
pnpm-lock.yaml, yarn.lock, package-lock.json; the npm branch runs
`npm remove` (not `npm uninstall`). -/
def removeExecute (runCmd : String → List String → CommandStatus)
    (files : List String) (packageName : String) :
    Except String String × List SpawnCall :=
  if packageName = "" ∨ jsTrim packageName = "" then
    (Except.error ("[" ++ removeToolName ++ "] package name must be provided."), [])
  else if fsExists files "bun.lock" then
    removeBranch runCmd "bun" packageName
  else if fsExists files "pnpm-lock.yaml" then
    removeBranch runCmd "pnpm" packageName
  else if fsExists files "yarn.lock" then
    removeBranch runCmd "yarn" packageName
  else if fsExists files "package-lock.json" then
    removeBranch runCmd "npm" packageName
  else
    (Except.error ("[" ++ removeToolName ++
      "] unable to detect package manager (no lockfile found)."), [])

/-- Embeds the legacy removePackages variant of src/unnamed/part_002
(lines 61-81): no input validation, shell command strings through
runShellCommand, and when no lockfile matches the function falls off the end
— it returns `undefined` (modelled as `none`) without throwing.  Note this
variant does use `npm uninstall`. -/
def removeExecuteLegacy (files : List String) (packageName : String) :
    Option String × List String :=
  if fsExists files "pnpm-lock.yaml" then
    (some ("pnpm remove " ++ packageName), ["pnpm remove " ++ packageName])
  else if fsExists files "yarn.lock" then
    (some ("yarn remove " ++ packageName), ["yarn remove " ++ packageName])
  else if fsExists files "package-lock.json" then
    (some ("npm uninstall " ++ packageName), ["npm uninstall " ++ packageName])
  else
    (none, [])

/-- The manager kind selected by the detection chain of removePackages.ts:
reads the four marker files in the branch order of the source. -/
def detectRemove (files : List String) : ManagerKind :=
  if fsExists files "bun.lock" then .bun
  else if fsExists files "pnpm-lock.yaml" then .pnpm
  else if fsExists files "yarn.lock" then .yarn
  else if fsExists files "package-lock.json" then .npm
  else .unknown

/-- The manager kind selected by the detection chain of installPackages.ts:
reads only three marker files, in the branch order of the source — bun.lock
is never checked by the install tool. -/
def detectInstall (files : List String) : ManagerKind :=
  if fsExists files "pnpm-lock.yaml" then .pnpm
  else if fsExists files "yarn.lock" then .yarn
  else if fsExists files "package-lock.json" then .npm
  else .unknown

/-- The executable name the remove tool runs for a detected manager. -/
def managerExe : ManagerKind → String
  | .bun => "bun"
  | .pnpm => "pnpm"
  | .yarn => "yarn"
  | .npm => "npm"
  | .unknown => ""

/-- The marker file of each manager kind, per the spec table in section 6. -/
def markerFile : ManagerKind → Option String
  | .bun => some "bun.lock"
  | .pnpm => some "pnpm-lock.yaml"
  | .yarn => some "yarn.lock"
  | .npm => some "package-lock.json"
  | .unknown => none

/-- Whether the marker file of kind `k` is present in the directory. -/
def markerPresent (files : List String) (k : ManagerKind) : Bool :=
  match markerFile k with
  | some m => fsExists files m
  | none => false

/-- Priority of each manager in the detection order of removePackages.ts
(bun highest), matching the spec declared order. -/
def removePriority : ManagerKind → Nat
  | .bun => 4
  | .pnpm => 3
  | .yarn => 2
  | .npm => 1
  | .unknown => 0

/-- Priority of each manager in the detection order of installPackages.ts
(pnpm highest; bun is not recognized there). -/
def installPriority : ManagerKind → Nat
  | .bun => 0
  | .pnpm => 3
  | .yarn => 2
  | .npm => 1
  | .unknown => 0

/-- Detection chain of removePackages.ts as a function of the four
marker-existence bits only. -/
def detectRemoveBits (b p y n : Bool) : ManagerKind :=
  if b then .bun
  else if p then .pnpm
  else if y then .yarn
  else if n then .npm
  else .unknown

/-- Detection chain of installPackages.ts as a function of the three
marker-existence bits it reads. -/
def detectInstallBits (p y n : Bool) : ManagerKind :=
  if p then .pnpm
  else if y then .yarn
  else if n then .npm
  else .unknown

theorem detectRemove_eq_bits (files : List String) :
    detectRemove files =
      detectRemoveBits (fsExists files "bun.lock") (fsExists files "pnpm-lock.yaml")
        (fsExists files "yarn.lock") (fsExists files "package-lock.json") := rfl

theorem detectInstall_eq_bits (files : List String) :
    detectInstall files =
      detectInstallBits (fsExists files "pnpm-lock.yaml")
        (fsExists files "yarn.lock") (fsExists files "package-lock.json") := rfl

/-- Marker presence as a function of the four marker-existence bits. -/
def markerPresentBits (b p y n : Bool) : ManagerKind → Bool
  | .bun => b
  | .pnpm => p
  | .yarn => y
  | .npm => n
  | .unknown => false

theorem markerPresent_eq_bits (files : List String) (k : ManagerKind) :
    markerPresent files k =
      markerPresentBits (fsExists files "bun.lock") (fsExists files "pnpm-lock.yaml")
        (fsExists files "yarn.lock") (fsExists files "package-lock.json") k := by
  cases k <;> rfl

/-- Embeds line 182 of src/tools/runJavaScriptScript.ts (and line 67 of its
sibling variant):
`timeoutSeconds = Math.max(5, Math.min(timeoutSeconds || 30, 300))`.
`none` is an absent argument, which the parameter default turns into 30; the
`|| 30` then also maps a zero value to 30 before clamping. -/
def effectiveTimeout (timeoutSeconds : Option Int) : Int :=
  let t := timeoutSeconds.getD 30
  let t' := if t = 0 then 30 else t
  max 5 (min t' 300)

/-- Modelled from the claim wording for C8: a falsy value (0 or absent) is
first replaced by the default 30, then the result is clamped into [5, 300]
via max(5, min(t, 300)). -/
def claimClampedTimeout (timeoutSeconds : Option Int) : Int :=
  let t : Int :=
    match timeoutSeconds with
    | none => 30
    | some x => if x = 0 then 30 else x
  max 5 (min t 300)

/-- Result record built by `execute` of src/tools/runJavaScriptScript.ts
(second variant, lines 192-199). -/
structure RunJSResult where
  ok : Bool
  output : String
  exitCode : Int
  format : String
deriving DecidableEq, Repr

/-- Outcome of the try-block body of the script runner: either the write of
the temp file threw, or the child process ran and produced a status. -/
inductive ScriptOutcome
  | writeError (msg : String)
  | ran (result : CommandStatus)
deriving DecidableEq, Repr

/-- Embeds `execute` of src/tools/runJavaScriptScript.ts (second variant,
lines 151-204).  The filesystem is the list of files in the working
directory; `temp` is the freshly generated temp-script name.  The body
writes the temp file, runs node, and the `finally` deletes the temp file on
every path, including the path where the write itself threw (in which case
the file was never created).  `outcome` abstracts the external effects. -/
def runScriptExecute (fs : List String) (temp fmt : String)
    (outcome : ScriptOutcome) : Except String RunJSResult × List String :=
  match outcome with
  | .writeError msg =>
      (Except.error msg, fs.erase temp)
  | .ran r =>
      let data : RunJSResult :=
        { ok := match r with | .success _ => true | _ => false
          output := match r with
            | .success o => o
            | .badExitCode o _ => o
            | .unknownError e => e
            | .timeout => "Timeout"
          exitCode := match r with | .badExitCode _ c => c | _ => 0
          format := fmt }
      (Except.ok data, (temp :: fs).erase temp)

/-- Outcome of the try-block body of the first runJavaScriptScript variant
(lines 30-108): on success execa resolves; on a non-zero exit, a timeout or
a spawn failure it throws, and the catch rethrows a wrapped Error; a failing
temp-file write is caught by the same catch. -/
inductive ExecaOutcome
  | resolved (stdout stderr : String) (exitCode : Int)
  | execError (msg : String)
  | writeError (msg : String)
deriving DecidableEq, Repr

/-- Legacy result record of the first runJavaScriptScript variant. -/
structure RunJSResultV1 where
  ok : Bool
  exitCode : Int
  stdout : String
  stderr : String
  format : String
deriving DecidableEq, Repr

/-- Embeds `execute` of the first variant in src/tools/runJavaScriptScript.ts
(lines 30-108): try writes the temp file and awaits execa; catch rethrows a
wrapped Error; finally removes the temp file with `rm -f` on every path. -/
def runScriptExecuteV1 (fs : List String) (temp fmt : String)
    (outcome : ExecaOutcome) : Except String RunJSResultV1 × List String :=
  match outcome with
  | .resolved stdout stderr exitCode =>
      (Except.ok ⟨true, exitCode, stdout.trim, stderr.trim, fmt⟩,
       (temp :: fs).erase temp)
  | .execError msg =>
      (Except.error ("[javascript/runJavaScriptScript] " ++ msg),
       (temp :: fs).erase temp)
  | .writeError msg =>
      (Except.error ("[javascript/runJavaScriptScript] " ++ msg), fs.erase temp)

/-- Outcome of linting one file in src/tools/eslint.ts: either readFile and
lintText both succeeded (with the source text read and the optional fixed
output ESLint produced), or some step threw with a message. -/
inductive LintOutcome
  | lintOk (source : String) (output : Option String)
  | fileError (msg : String)
deriving DecidableEq, Repr

/-- One entry of the results array built by src/tools/eslint.ts. -/
structure EslintEntry where
  file : String
  output : Option String
  error : Option String
deriving DecidableEq, Repr

/-- Embeds one iteration of the for-loop of `execute` in src/tools/eslint.ts
(lines 29-55): returns the single result entry pushed for the file together
with the writeFile calls performed (file, new content).  The write condition
is the JavaScript test `result.output && result.output !== source`: the
output must be truthy (present and non-empty) and differ from the source. -/
def eslintFileStep (lint : String → LintOutcome) (file : String) :
    EslintEntry × List (String × String) :=
  match lint file with
  | .lintOk source out =>
      match out with
      | some o =>
          if o ≠ "" ∧ o ≠ source then
            (⟨file, some "Successfully fixed", none⟩, [(file, o)])
          else
            (⟨file, some "No changes needed", none⟩, [])
      | none => (⟨file, some "No changes needed", none⟩, [])
  | .fileError msg => (⟨file, none, some msg⟩, [])

/-- Embeds the for-loop of `execute` in src/tools/eslint.ts: every file is
processed in order; a per-file failure is caught inside the loop, appends an
error entry, and processing continues with the remaining files.  Returns the
results array and the list of writeFile calls. -/
def eslintExecute (lint : String → LintOutcome) (files : List String) :
    List EslintEntry × List (String × String) :=
  match files with
  | [] => ([], [])
  | f :: rest =>
      let step := eslintFileStep lint f
      let restRun := eslintExecute lint rest
      (step.1 :: restRun.1, step.2 ++ restRun.2)

/-- Modelled from the claim wording for C10: the one result entry promised
for each input file (fixed when a truthy, differing output was produced; no
changes needed otherwise; an error entry when the file failed). -/
def claimEntry (lint : String → LintOutcome) (f : String) : EslintEntry :=
  match lint f with
  | .lintOk src (some o) =>
      if o ≠ "" ∧ o ≠ src then ⟨f, some "Successfully fixed", none⟩
      else ⟨f, some "No changes needed", none⟩
  | .lintOk _ none => ⟨f, some "No changes needed", none⟩
  | .fileError msg => ⟨f, none, some msg⟩

/-- Modelled from the claim wording for C10: the write performed for a file,
if any — only when the linter produced a truthy fixed output that differs
from the original source. -/
def claimWrite (lint : String → LintOutcome) (f : String) :
    Option (String × String) :=
  match lint f with
  | .lintOk src (some o) => if o ≠ "" ∧ o ≠ src then some (f, o) else none
  | _ => none

/-! Helper lemmas shared by the claim theorems. -/

/-- Every detection branch of removePackages.ts spawns exactly one child,
with argument list `["remove", packageName]`. -/
theorem removeBranch_spawn (runCmd : String → List String → CommandStatus)
    (exe packageName : String) :
    (removeBranch runCmd exe packageName).2 = [⟨exe, ["remove", packageName]⟩] := by
  unfold removeBranch
  split <;> rfl

/-- Every detection branch of removePackages.ts returns normally (never
throws), whatever the child process status was. -/
theorem removeBranch_returns (runCmd : String → List String → CommandStatus)
    (exe packageName : String) :
    ∃ s, (removeBranch runCmd exe packageName).1 = Except.ok s := by
  unfold removeBranch
  split <;> exact ⟨_, rfl⟩

/-- On a badExitCode child status, the detection branch returns the
could-not-be-removed message carrying the captured output. -/
theorem removeBranch_badExit (runCmd : String → List String → CommandStatus)
    (exe packageName output : String) (code : Int)
    (h : runCmd exe ["remove", packageName] = .badExitCode output code) :
    (removeBranch runCmd exe packageName).1 =
      Except.ok ("Package " ++ packageName ++ " could not be removed:\n" ++ output) := by
  unfold removeBranch
  rw [h]

/-- Finite-case core of the detection-priority argument, over the four
marker-existence bits. -/
theorem detect_bits_priority (b p y n : Bool) (k : ManagerKind) :
    (markerPresentBits b p y n k = true →
      markerPresentBits b p y n (detectRemoveBits b p y n) = true ∧
      removePriority k ≤ removePriority (detectRemoveBits b p y n)) ∧
    (markerPresentBits b p y n k = true → k ≠ .bun →
      markerPresentBits b p y n (detectInstallBits p y n) = true ∧
      installPriority k ≤ installPriority (detectInstallBits p y n)) := by
  cases k <;> revert b p y n <;> decide

/-! Claim theorems. -/

/-- C5: for every directory (hence every manager kind) and every `runCmd`
oracle, calling the install or remove tool with an empty package-name input
throws the invalid-argument error before any detection check, and the list
of spawned processes is empty. -/
theorem claim5_empty_input_rejected_before_spawn
    (runCmd : String → List String → CommandStatus)
    (files : List String) (isDev : Bool) :
    installExecute files isDev "" =
      (Except.error ("[" ++ installToolName ++ "] packageName is required"), []) ∧
    removeExecute runCmd files "" =
      (Except.error ("[" ++ removeToolName ++ "] package name must be provided."), []) := by
  constructor
  · rfl
  · simp [removeExecute]

/-- C7: detection is deterministic and stateless — it is a pure function of
the directory contents, so two directories with identical contents (the same
answer to every file-existence query) yield the same detected manager, for
the remove tool chain and the install tool chain alike; there is no cache or
memoization that a prior call could influence. -/
theorem claim7_detect_deterministic (d1 d2 : List String)
    (h : ∀ m : String, fsExists d1 m = fsExists d2 m) :
    detectRemove d1 = detectRemove d2 ∧ detectInstall d1 = detectInstall d2 := by
  constructor <;> simp only [detectRemove, detectInstall, h]

/-- Witness for C7 at a concrete directory. -/
theorem claim7_witness :
    detectRemove ["yarn.lock"] = detectRemove ["yarn.lock"] ∧
    detectInstall ["yarn.lock"] = detectInstall ["yarn.lock"] :=
  claim7_detect_deterministic ["yarn.lock"] ["yarn.lock"] (fun _ => rfl)

/-- C8: the effective child-process timeout of runJavaScriptScript equals
the claim formula — a falsy input (0 or absent) is first replaced by the
default 30, then the value is clamped by max(5, min(t, 300)) — and the
result always lies in the closed interval [5, 300]. -/
theorem claim8_timeout_clamped (ts : Option Int) :
    effectiveTimeout ts = claimClampedTimeout ts ∧
    5 ≤ effectiveTimeout ts ∧ effectiveTimeout ts ≤ 300 := by
  refine ⟨?_, ?_, ?_⟩
  · cases ts <;> rfl
  · exact le_max_left _ _
  · exact max_le (by norm_num) (min_le_right _ _)

/-- C2 counterexample: in a directory holding both bun.lock and
pnpm-lock.yaml, the highest-priority marker is bun.lock, and the remove tool
does select bun — but the install tool never checks bun.lock and selects
pnpm, spawning `pnpm add left-pad`.  The claim, which asserts the
bun-first priority for both operations, is therefore false on the install
operation. -/
theorem claim2_counterexample :
    detectRemove ["bun.lock", "pnpm-lock.yaml"] = ManagerKind.bun ∧
    detectInstall ["bun.lock", "pnpm-lock.yaml"] = ManagerKind.pnpm ∧
    installExecute ["bun.lock", "pnpm-lock.yaml"] false "left-pad" =
      (Except.ok "pnpm add left-pad", ["pnpm add left-pad"]) :=
  ⟨rfl, rfl, rfl⟩

/-- C2 amended: the remove tool checks bun.lock, pnpm-lock.yaml, yarn.lock,
package-lock.json in that order, and whenever the marker of kind `k` is
present the selected manager has a present marker of priority at least that
of `k` (bun > pnpm > yarn > npm); the install tool does not recognize
bun.lock, and satisfies the same highest-priority-marker property only over
pnpm > yarn > npm. -/
theorem claim2_amended (files : List String) (k : ManagerKind)
    (h : markerPresent files k = true) :
    (markerPresent files (detectRemove files) = true ∧
     removePriority k ≤ removePriority (detectRemove files)) ∧
    (k ≠ .bun →
      markerPresent files (detectInstall files) = true ∧
      installPriority k ≤ installPriority (detectInstall files)) := by
  rw [markerPresent_eq_bits] at h
  rw [detectRemove_eq_bits, detectInstall_eq_bits, markerPresent_eq_bits,
    markerPresent_eq_bits]
  exact ⟨(detect_bits_priority _ _ _ _ k).1 h,
    fun hk => (detect_bits_priority _ _ _ _ k).2 h hk⟩

/-- Witness for C2 amended at a concrete directory holding the pnpm and yarn
markers, instantiated at the yarn marker. -/
theorem claim2_amended_witness :
    markerPresent ["pnpm-lock.yaml", "yarn.lock"]
      (detectRemove ["pnpm-lock.yaml", "yarn.lock"]) = true ∧
    removePriority .yarn ≤
      removePriority (detectRemove ["pnpm-lock.yaml", "yarn.lock"]) :=
  (claim2_amended ["pnpm-lock.yaml", "yarn.lock"] .yarn (by decide)).1

/-- C3 counterexample: the legacy remove variant (src/unnamed/part_002,
cited by the claim) falls off the end of the function in a directory with no
recognized marker: it returns undefined — a silent no-op with no spawned
process and no thrown error — falsifying the claim that the remove
operation always fails with an explicit error there. -/
theorem claim3_counterexample :
    removeExecuteLegacy [] "left-pad" = (none, []) := rfl

/-- C3 amended: in a directory with none of the recognized markers, the
current install and remove tools both throw an explicit error and spawn no
process — the install message names pnpm-lock.yaml, yarn.lock and
package-lock.json (bun.lock is not recognized by install), while the remove
message reports that no lockfile was found without naming the files — but
the legacy remove variant of part_002 silently returns undefined without
spawning. -/
theorem claim3_amended (runCmd : String → List String → CommandStatus)
    (files : List String) (isDev : Bool) (name : String)
    (hname : ¬(name = "" ∨ jsTrim name = ""))
    (hb : fsExists files "bun.lock" = false)
    (hp : fsExists files "pnpm-lock.yaml" = false)
    (hy : fsExists files "yarn.lock" = false)
    (hn : fsExists files "package-lock.json" = false) :
    installExecute files isDev name =
      (Except.error ("[" ++ installToolName ++
        "] No supported package manager lock file found (pnpm-lock.yaml, yarn.lock, package-lock.json)."),
       []) ∧
    removeExecute runCmd files name =
      (Except.error ("[" ++ removeToolName ++
        "] unable to detect package manager (no lockfile found)."), []) ∧
    removeExecuteLegacy files name = (none, []) := by
  have hname' : ¬name = "" := fun h => hname (Or.inl h)
  have htrim : ¬jsTrim name = "" := fun h => hname (Or.inr h)
  refine ⟨?_, ?_, ?_⟩ <;>
    simp [installExecute, removeExecute, removeExecuteLegacy, hname, hname',
      htrim, hb, hp, hy, hn]

/-- Witness for C3 amended at a concrete markerless directory. -/
theorem claim3_amended_witness :
    removeExecute (fun _ _ => CommandStatus.timeout) ["README.md"] "left-pad" =
      (Except.error ("[" ++ removeToolName ++
        "] unable to detect package manager (no lockfile found)."), []) ∧
    removeExecuteLegacy ["README.md"] "left-pad" = (none, []) := by
  have h := claim3_amended (fun _ _ => CommandStatus.timeout) ["README.md"]
    false "left-pad" (by decide) rfl rfl rfl rfl
  exact ⟨h.2.1, h.2.2⟩

/-- C1 counterexample: with pnpm detected and the non-empty input
"left-pad is-odd" (two package names), the install tool hands the bash tool
ONE shell command string in which the dev flag and both package names are
interpolated together — there is no per-name argument-list entry —
falsifying the claim for the install operation. -/
theorem claim1_counterexample :
    installExecute ["pnpm-lock.yaml"] true "left-pad is-odd" =
      (Except.ok "pnpm add -D left-pad is-odd", ["pnpm add -D left-pad is-odd"]) :=
  rfl

/-- C1 amended: the remove tool passes the whole package-name input as one
argument-list entry after the "remove" subcommand token (so names are never
merged with flags, but multiple space-separated names stay a single entry);
the install tool instead interpolates flags and the package-name input into
a single shell command string handed to the bash tool. -/
theorem claim1_amended (runCmd : String → List String → CommandStatus)
    (files : List String) (name : String) (isDev : Bool)
    (h1 : ¬(name = "" ∨ jsTrim name = ""))
    (h2 : detectRemove files ≠ .unknown) :
    (removeExecute runCmd files name).2 =
      [⟨managerExe (detectRemove files), ["remove", name]⟩] ∧
    (detectInstall files ≠ .unknown →
      ∃ cmd : String, installExecute files isDev name = (Except.ok cmd, [cmd])) := by
  constructor
  · unfold detectRemove at h2 ⊢
    unfold removeExecute
    rw [if_neg h1]
    split_ifs at h2 ⊢ with hb hp hy hn <;>
      simp_all [removeBranch_spawn, managerExe]
  · intro h3
    have h1' : ¬name = "" := fun h => h1 (Or.inl h)
    unfold installExecute
    unfold detectInstall at h3
    rw [if_neg h1']
    split_ifs at h3 ⊢ <;> simp_all

/-- Witness for C1 amended at a concrete directory and input. -/
theorem claim1_amended_witness :
    (removeExecute (fun _ _ => CommandStatus.success "") ["bun.lock"]
      "left-pad is-odd").2 =
      [⟨managerExe (detectRemove ["bun.lock"]), ["remove", "left-pad is-odd"]⟩] :=
  (claim1_amended (fun _ _ => CommandStatus.success "") ["bun.lock"]
    "left-pad is-odd" false (by decide) (by decide)).1

/-- Helper: no detection branch of removePackages.ts ever throws. -/
theorem removeBranch_not_error (runCmd : String → List String → CommandStatus)
    (exe packageName msg : String) :
    (removeBranch runCmd exe packageName).1 ≠ Except.error msg := by
  unfold removeBranch
  split <;> simp

/-- C4 counterexample: two runs that differ only in the child exit code
(1 versus 2) return IDENTICAL results, so the exit code is not part of the
value `run` returns, falsifying the claim that the captured exit code is
returned; the second conjunct shows the non-zero exit is still a normal
(non-thrown) return carrying the captured output. -/
theorem claim4_counterexample :
    removeExecute (fun _ _ => CommandStatus.badExitCode "not found" 1)
        ["pnpm-lock.yaml"] "left-pad" =
      removeExecute (fun _ _ => CommandStatus.badExitCode "not found" 2)
        ["pnpm-lock.yaml"] "left-pad" ∧
    (removeExecute (fun _ _ => CommandStatus.badExitCode "not found" 1)
        ["pnpm-lock.yaml"] "left-pad").1 =
      Except.ok "Package left-pad could not be removed:\nnot found" :=
  ⟨rfl, rfl⟩

/-- C4 amended: when the child exits with a non-zero code, `run` returns
normally with the could-not-be-removed message carrying the captured output
(the exit code itself is not included in the result); and `run` throws only
for the two precondition violations — an empty (or whitespace-only) package
name, or an undetected manager. -/
theorem claim4_amended :
    (∀ (runCmd : String → List String → CommandStatus) (files : List String)
        (name output : String) (code : Int),
        ¬(name = "" ∨ jsTrim name = "") →
        detectRemove files ≠ .unknown →
        runCmd (managerExe (detectRemove files)) ["remove", name] =
          .badExitCode output code →
        (removeExecute runCmd files name).1 =
          Except.ok ("Package " ++ name ++ " could not be removed:\n" ++ output)) ∧
    (∀ (runCmd : String → List String → CommandStatus) (files : List String)
        (name msg : String),
        (removeExecute runCmd files name).1 = Except.error msg →
        (name = "" ∨ jsTrim name = "") ∨ detectRemove files = .unknown) := by
  constructor
  · intro runCmd files name output code h1 h2 hr
    unfold detectRemove at h2 hr
    unfold removeExecute
    rw [if_neg h1]
    split_ifs at h2 hr ⊢ <;>
      first
        | exact absurd rfl h2
        | exact removeBranch_badExit runCmd _ name output code hr
  · intro runCmd files name msg h
    by_cases h1 : name = "" ∨ jsTrim name = ""
    · exact Or.inl h1
    · refine Or.inr ?_
      unfold removeExecute at h
      rw [if_neg h1] at h
      unfold detectRemove
      split_ifs at h ⊢ <;>
        first
          | rfl
          | exact absurd h (removeBranch_not_error _ _ _ _)

/-- Witness for C4 amended: part one at a concrete yarn project with a
failing child, part two at a concrete empty-name call. -/
theorem claim4_amended_witness :
    (removeExecute (fun _ _ => CommandStatus.badExitCode "not found" 1)
        ["yarn.lock"] "left-pad").1 =
      Except.ok ("Package " ++ "left-pad" ++ " could not be removed:\n" ++ "not found") ∧
    ((("" : String) = "" ∨ jsTrim "" = "") ∨ detectRemove ["yarn.lock"] = .unknown) :=
  ⟨claim4_amended.1 (fun _ _ => CommandStatus.badExitCode "not found" 1)
      ["yarn.lock"] "left-pad" "not found" 1 (by decide) (by decide) rfl,
   claim4_amended.2 (fun _ _ => CommandStatus.badExitCode "not found" 1)
      ["yarn.lock"] ""
      ("[" ++ removeToolName ++ "] package name must be provided.") rfl⟩

/-- C6 counterexample: for the npm manager the remove tool spawns
`npm remove left-pad`, not the `npm uninstall` the claim states; and for a
bun project the install tool has no `bun add` template at all — it throws
the no-lockfile error. -/
theorem claim6_counterexample :
    (removeExecute (fun _ _ => CommandStatus.success "") ["package-lock.json"]
        "left-pad").2 = [⟨"npm", ["remove", "left-pad"]⟩] ∧
    ¬((removeExecute (fun _ _ => CommandStatus.success "") ["package-lock.json"]
        "left-pad").2 = [⟨"npm", ["uninstall", "left-pad"]⟩]) ∧
    installExecute ["bun.lock"] false "left-pad" =
      (Except.error ("[" ++ installToolName ++
        "] No supported package manager lock file found (pnpm-lock.yaml, yarn.lock, package-lock.json)."),
       []) := by
  refine ⟨rfl, by decide, rfl⟩

/-- C6 amended: the actual command table — install: pnpm `pnpm add [-D ]`,
yarn `yarn add [--dev ]`, npm `npm install [--save-dev ]`, with the dev flag
present exactly when isDev is set, and no bun row; remove: `bun remove`,
`pnpm remove`, `yarn remove`, `npm remove` (not `npm uninstall`), with no
dev flag. -/
theorem claim6_amended (runCmd : String → List String → CommandStatus)
    (files : List String) (name : String) (isDev : Bool)
    (h1 : ¬(name = "" ∨ jsTrim name = "")) :
    ((detectRemove files = .bun →
        (removeExecute runCmd files name).2 = [⟨"bun", ["remove", name]⟩]) ∧
     (detectRemove files = .pnpm →
        (removeExecute runCmd files name).2 = [⟨"pnpm", ["remove", name]⟩]) ∧
     (detectRemove files = .yarn →
        (removeExecute runCmd files name).2 = [⟨"yarn", ["remove", name]⟩]) ∧
     (detectRemove files = .npm →
        (removeExecute runCmd files name).2 = [⟨"npm", ["remove", name]⟩])) ∧
    ((detectInstall files = .pnpm →
        installExecute files isDev name =
          (Except.ok ("pnpm add " ++ (if isDev then "-D " else "") ++ name),
           ["pnpm add " ++ (if isDev then "-D " else "") ++ name])) ∧
     (detectInstall files = .yarn →
        installExecute files isDev name =
          (Except.ok ("yarn add " ++ (if isDev then "--dev " else "") ++ name),
           ["yarn add " ++ (if isDev then "--dev " else "") ++ name])) ∧
     (detectInstall files = .npm →
        installExecute files isDev name =
          (Except.ok ("npm install " ++ (if isDev then "--save-dev " else "") ++ name),
           ["npm install " ++ (if isDev then "--save-dev " else "") ++ name]))) := by
  have h1' : ¬name = "" := fun h => h1 (Or.inl h)
  refine ⟨⟨?_, ?_, ?_, ?_⟩, ?_, ?_, ?_⟩
  all_goals intro hk
  all_goals
    first
      | (unfold detectRemove at hk
         unfold removeExecute
         rw [if_neg h1]
         split_ifs at hk ⊢
         all_goals simp_all [removeBranch_spawn])
      | (unfold detectInstall at hk
         unfold installExecute
         rw [if_neg h1']
         split_ifs at hk ⊢
         all_goals simp_all)

/-- Witness for C6 amended at a concrete yarn project. -/
theorem claim6_amended_witness :
    (removeExecute (fun _ _ => CommandStatus.success "") ["yarn.lock"]
        "left-pad").2 = [⟨"yarn", ["remove", "left-pad"]⟩] ∧
    installExecute ["yarn.lock"] true "left-pad" =
      (Except.ok "yarn add --dev left-pad", ["yarn add --dev left-pad"]) := by
  have h := claim6_amended (fun _ _ => CommandStatus.success "") ["yarn.lock"]
    "left-pad" true (by decide)
  exact ⟨h.1.2.2.1 rfl, h.2.2.1 rfl⟩

/-- C9: for every execution path of both runJavaScriptScript variants —
successful run, non-zero exit, timeout, unknown error, or a thrown error
(including a failing temp-file write) — the finally block deletes the temp
file, so a temp file that did not pre-exist never remains in the directory
after the call returns or throws. -/
theorem claim9_temp_file_removed (fs : List String) (temp fmt : String)
    (o1 : ExecaOutcome) (o2 : ScriptOutcome) (h : temp ∉ fs) :
    temp ∉ (runScriptExecuteV1 fs temp fmt o1).2 ∧
    temp ∉ (runScriptExecute fs temp fmt o2).2 := by
  constructor
  · cases o1 <;>
      simp [runScriptExecuteV1, List.erase_cons_head, List.erase_of_not_mem h, h]
  · cases o2 <;>
      simp [runScriptExecute, List.erase_cons_head, List.erase_of_not_mem h, h]

/-- Witness for C9 at concrete outcomes: a thrown execa error in the first
variant and a non-zero exit in the second. -/
theorem claim9_witness :
    "temp-script-0a1b.mjs" ∉
      (runScriptExecuteV1 [] "temp-script-0a1b.mjs" "esm"
        (.execError "Command timed out")).2 ∧
    "temp-script-0a1b.mjs" ∉
      (runScriptExecute [] "temp-script-0a1b.mjs" "esm"
        (.ran (.badExitCode "boom" 1))).2 :=
  claim9_temp_file_removed [] "temp-script-0a1b.mjs" "esm"
    (.execError "Command timed out") (.ran (.badExitCode "boom" 1))
    (List.not_mem_nil _)

/-- Helper: the entry and write of one loop iteration of the eslint tool
match the per-file behavior the claim describes. -/
theorem eslintFileStep_spec (lint : String → LintOutcome) (f : String) :
    (eslintFileStep lint f).1 = claimEntry lint f ∧
    (eslintFileStep lint f).2 = (claimWrite lint f).toList := by
  cases h : lint f with
  | lintOk src out =>
    cases out with
    | none => simp [eslintFileStep, claimEntry, claimWrite, h]
    | some o =>
      by_cases ho : o ≠ "" ∧ o ≠ src <;>
        simp [eslintFileStep, claimEntry, claimWrite, h, ho]
  | fileError msg => simp [eslintFileStep, claimEntry, claimWrite, h]

/-- C10: the eslint tool produces exactly one result entry per input file
(entries are the per-file entries, in order, so a failing file only adds an
error entry and processing continues), and it writes a file back exactly
when the linter produced a truthy fixed output differing from the original
source — every performed write comes from such a differing output, and
files without one are left unwritten with a no-changes entry. -/
theorem claim10_eslint (lint : String → LintOutcome) (files : List String) :
    (eslintExecute lint files).1 = files.map (claimEntry lint) ∧
    (eslintExecute lint files).2 = files.filterMap (claimWrite lint) ∧
    (eslintExecute lint files).1.length = files.length ∧
    (∀ f o, (f, o) ∈ (eslintExecute lint files).2 →
      ∃ src, lint f = .lintOk src (some o) ∧ o ≠ "" ∧ o ≠ src) := by
  have hmain : (eslintExecute lint files).1 = files.map (claimEntry lint) ∧
      (eslintExecute lint files).2 = files.filterMap (claimWrite lint) := by
    induction files with
    | nil => exact ⟨rfl, rfl⟩
    | cons f rest ih =>
      constructor
      · show (eslintFileStep lint f).1 :: (eslintExecute lint rest).1 = _
        rw [(eslintFileStep_spec lint f).1, ih.1, List.map_cons]
      · show (eslintFileStep lint f).2 ++ (eslintExecute lint rest).2 = _
        rw [(eslintFileStep_spec lint f).2, ih.2, List.filterMap_cons]
        cases claimWrite lint f <;> simp
  refine ⟨hmain.1, hmain.2, ?_, ?_⟩
  · rw [hmain.1, List.length_map]
  · intro f o hm
    rw [hmain.2] at hm
    rcases List.mem_filterMap.mp hm with ⟨g, _, hw⟩
    cases h : lint g with
    | lintOk src out =>
      cases out with
      | none => simp [claimWrite, h] at hw
      | some o' =>
        by_cases hc : o' ≠ "" ∧ o' ≠ src
        · simp only [claimWrite, h, if_pos hc, Option.some.injEq,
            Prod.mk.injEq] at hw
          obtain ⟨hgf, hoo⟩ := hw
          subst hgf
          subst hoo
          exact ⟨src, h, hc.1, hc.2⟩
        · simp [claimWrite, h, if_neg hc] at hw
    | fileError msg => simp [claimWrite, h] at hw

/-- Witness for C10 at a concrete three-file batch: one fixable file, one
failing file, one clean file. -/
theorem claim10_witness :
    (eslintExecute
        (fun f =>
          if f = "a.ts" then .lintOk "old code" (some "new code")
          else if f = "b.ts" then .fileError "parse failed"
          else .lintOk "same code" (some "same code"))
        ["a.ts", "b.ts", "c.ts"]).1 =
      ["a.ts", "b.ts", "c.ts"].map (claimEntry
        (fun f =>
          if f = "a.ts" then .lintOk "old code" (some "new code")
          else if f = "b.ts" then .fileError "parse failed"
          else .lintOk "same code" (some "same code"))) ∧
    (eslintExecute
        (fun f =>
          if f = "a.ts" then .lintOk "old code" (some "new code")
          else if f = "b.ts" then .fileError "parse failed"
          else .lintOk "same code" (some "same code"))
        ["a.ts", "b.ts", "c.ts"]).1.length = 3 := by
  have h := claim10_eslint
    (fun f =>
      if f = "a.ts" then .lintOk "old code" (some "new code")
      else if f = "b.ts" then .fileError "parse failed"
      else .lintOk "same code" (some "same code"))
    ["a.ts", "b.ts", "c.ts"]
  exact ⟨h.1, h.2.2.1⟩

end TokenRingJS
